import Mathlib

/-!
Verification development for the LRms LoRa radio tools (RYLR993 / RYLR998).

Python strings are modelled as `List Char` (Python `len` on a `str` counts
code points, which matches `List.length` on `List Char`).  Python `bytes`
values that only ever hold decoded text are also modelled as `List Char`;
where the byte/character distinction matters (UTF-8 encoding of outgoing
frames) the byte length is computed with `Char.utf8Size`, which is exactly
the length in bytes of the UTF-8 encoding Python produces with
`str.encode()`.  Fallible Python code (statements that can raise
`IndexError` / `ValueError` / `TypeError`) is modelled with explicit error
constructors.
-/

namespace LRms

/-- One decimal digit as a character, `d` is taken mod the ten cases
(the callers only ever pass values below 10). -/
def digitChar (d : Nat) : Char :=
  match d with
  | 0 => '0' | 1 => '1' | 2 => '2' | 3 => '3' | 4 => '4'
  | 5 => '5' | 6 => '6' | 7 => '7' | 8 => '8' | _ => '9'

/-- Fuel-driven base-10 conversion, most significant digit first. -/
def natToCharsAux : Nat → Nat → List Char
  | 0, _ => []
  | fuel + 1, n =>
    if n < 10 then [digitChar n]
    else natToCharsAux fuel (n / 10) ++ [digitChar (n % 10)]

/-- Python `str(n)` for a non-negative integer `n`. -/
def natToChars (n : Nat) : List Char :=
  natToCharsAux (n + 1) n

/-- Python `str(i)` for an integer `i` (a leading minus sign when negative). -/
def intToChars (i : Int) : List Char :=
  if i < 0 then '-' :: natToChars (-i).toNat else natToChars i.toNat

/-- The characters Python `str.strip()` removes. -/
def pyIsSpace (c : Char) : Bool :=
  c = ' ' || c = '\t' || c = '\n' || c = '\r' || c = '\x0b' || c = '\x0c'

/-- Python `str.strip()`: drop leading and trailing whitespace. -/
def pyStrip (l : List Char) : List Char :=
  ((l.dropWhile pyIsSpace).reverse.dropWhile pyIsSpace).reverse

/-- Python `str.split(sep)` for a one-character separator: splits at every
occurrence of `sep`, keeping empty segments, and yields `[[]]` on the empty
string (Python: `"".split(",") == [""]`). -/
def pySplit (sep : Char) : List Char → List (List Char)
  | [] => [[]]
  | c :: cs =>
    let r := pySplit sep cs
    if c = sep then [] :: r
    else
      match r with
      | [] => [[c]]
      | h :: t => (c :: h) :: t

/-- `len(s.encode())` in Python: the UTF-8 byte length of a text value. -/
def byteLen (s : List Char) : Nat :=
  (s.map Char.utf8Size).sum

/-! ## Repeater message processing (legacy/LRms-repeater-pico.py)

`MessageHandler.process_message(received_data)` returns a description
string; the interesting observable effects are modelled by a tagged
result.  The `received_data` bytes are modelled as their decoded text (for
the ASCII tag `b"RPT"`, byte-level containment and character-level
containment agree, because UTF-8 continuation bytes are all at least
0x80 while the tag bytes are below 0x80). -/

inductive RepeaterOutcome where
  /-- `return "Ignoring repeated message"` (the `b"RPT" in received_data` drop). -/
  | ignored : RepeaterOutcome
  /-- `return f"Received non-message data: ..."` with the stripped line. -/
  | nonMessage (raw : List Char) : RepeaterOutcome
  /-- `return f"Received malformed message: ..."` with the stripped line. -/
  | malformed (raw : List Char) : RepeaterOutcome
  /-- an uncaught `IndexError` from `parts[0].split("=")[1]`. -/
  | indexError : RepeaterOutcome
  /-- the frame written to the transport by `write_serial(repeated_message)`. -/
  | repeated (frame : List Char) : RepeaterOutcome
deriving DecidableEq

/-- `MessageHandler.process_message` of the repeater, for a handler built
with station id `stationId`.  Mirrors the source line by line: the
`b"RPT"` containment test on the raw bytes, `.decode().strip()`, the
`"+RCV=" not in` test, `split(",")` with the `len(parts) < 3` guard, then
`parts[0].split("=")[1]` (which can raise `IndexError`), `parts[2].strip()`,
the character-count arithmetic and the `AT+SEND` frame. -/
def process_message (stationId received : List Char) : RepeaterOutcome :=
  if "RPT".data <:+: received then .ignored
  else
    let decoded := pyStrip received
    if "+RCV=".data <:+: decoded then
      let parts := pySplit ',' decoded
      if parts.length < 3 then .malformed decoded
      else
        match (pySplit '=' (parts.headD [])).get? 1, parts.get? 2 with
        | some senderId, some part2 =>
          let messageText := pyStrip part2
          let totalChars :=
            messageText.length + senderId.length + " VIA".length + stationId.length
          .repeated ("AT+SEND=0,".data ++ natToChars totalChars ++ [','] ++
            messageText ++ [' '] ++ senderId ++ "VIA".data ++ stationId ++ "\r\n".data)
        | _, _ => .indexError
    else .nonMessage decoded

/-! ## Messenger message parsing and sending (legacy/LRms-messenger-pi.py) -/

inductive MessengerOutcome where
  /-- `return None` because `"+RCV" not in received_data`. -/
  | notAnEvent : MessengerOutcome
  /-- an uncaught `IndexError` from one of the field accesses
  `data_parts[0].split("=")[1]`, `data_parts[2]`, `data_parts[3]`,
  `data_parts[4]`. -/
  | indexError : MessengerOutcome
  /-- `return None` because `"RPT" in msgcontent`.  (In Python this `None`
  is indistinguishable from the `notAnEvent` `None`; the embedding keeps
  the two return sites apart.) -/
  | droppedRPT : MessengerOutcome
  /-- the returned dict with keys stationid, msgcontent, rssi, snr. -/
  | parsed (stationid msgcontent rssi snr : List Char) : MessengerOutcome
deriving DecidableEq

/-- `MessageHandler.parse_received_message` of the messenger.  The source
guards only on `"+RCV" not in received_data` and then indexes
`data_parts[0].split("=")[1]`, `data_parts[2]`, `data_parts[3]` and
`data_parts[4]` without any length check; a missing field raises
`IndexError`, modelled by the `indexError` outcome. -/
def parse_received_message (received : List Char) : MessengerOutcome :=
  if "+RCV".data <:+: received then
    let parts := pySplit ',' received
    match (pySplit '=' (parts.headD [])).get? 1,
          parts.get? 2, parts.get? 3, parts.get? 4 with
    | some stationid, some msgcontent, some rssi, some snr =>
      if "RPT".data <:+: msgcontent then .droppedRPT
      else .parsed stationid msgcontent rssi snr
    | _, _, _, _ => .indexError
  else .notAnEvent

/-- `MessageHandler.send_message` of the messenger: the frame written to
the transport.  Note that `message_length = len(message)` is the character
count of the text, not the UTF-8 byte count of what `write_serial`
actually transmits via `.encode()`. -/
def send_message (message : List Char) : List Char :=
  "AT+SEND=0,".data ++ natToChars message.length ++ [','] ++ message ++ "\r\n".data

/-- `Commander.send_at_command` (src/functions/commander.py): the frame
written to the transport.  Identical length computation to the legacy
`send_message`: `cmd_length = len(command)` is a character count. -/
def send_at_command (command : List Char) : List Char :=
  "AT+SEND=0,".data ++ natToChars command.length ++ [','] ++ command ++ "\r\n".data

/-! ## A receive-notification line and the echoed send frame -/

/-- A module receive-notification line
`+RCV=<addr>,<len>,<payload>,<rssi>,<snr>` with a numeric sender address,
numeric length field and signed numeric RSSI / SNR, as the radio emits
them. -/
def rcvLine (addr lenField : Nat) (payload : List Char) (rssi snr : Int) : List Char :=
  "+RCV=".data ++ natToChars addr ++ [','] ++ natToChars lenField ++ [','] ++
    payload ++ [','] ++ intToChars rssi ++ [','] ++ intToChars snr

/-- A send frame for `payload` echoed back as a receive notification: the
length field is the one the send path puts into `AT+SEND` (the character
count, see `send_message` / `send_at_command`), the payload is carried
verbatim, and the radio adds sender address, RSSI and SNR. -/
def echoRcv (addr : Nat) (payload : List Char) (rssi snr : Int) : List Char :=
  rcvLine addr payload.length payload rssi snr

/-! ## Configuration handshakes

The handshakes are modelled as the trace of externally visible actions
they perform on the transport: writes, settle delays, and iterated
response-drain loops. -/

inductive CfgAction where
  /-- `write_serial(line)`. -/
  | write (line : List Char) : CfgAction
  /-- a fixed settle delay in seconds (`time.sleep` / `threading.Event().wait`). -/
  | settle (seconds : Nat) : CfgAction
  /-- an executed drain loop reading and discarding up to `maxReads` responses. -/
  | drain (maxReads : Nat) : CfgAction
deriving DecidableEq

/-- `DeviceConfigurator.configure_rylr993` (src/functions/device_setup.py).
The final statement `self.connection.read_serial()` merely creates the
generator returned by the generator function `read_serial` and never
iterates it, so its body never runs: no response is read and no drain
action appears in the trace. -/
def configure_rylr993 (rfFreq nodeId txPower : Nat) (loraParams : List Char) :
    List CfgAction :=
  [ .write "AT+RESET\r\n".data, .settle 2,
    .write "AT+OPMODE=1\r\n".data, .settle 2,
    .write "AT+RESET\r\n".data, .settle 2,
    .write ("AT+BAND=".data ++ natToChars rfFreq ++ "\r\n".data), .settle 1,
    .write ("AT+ADDRESS=".data ++ natToChars nodeId ++ "\r\n".data), .settle 1,
    .write ("AT+CRFOP=".data ++ natToChars txPower ++ "\r\n".data), .settle 1,
    .write ("AT+PARAMETER=".data ++ loraParams ++ "\r\n".data), .settle 1 ]

/-- `DeviceConfigurator.configure_rylr998` (src/functions/device_setup.py).
Same remark as for `configure_rylr993`: the trailing `read_serial()` call
creates an unconsumed generator, so nothing is drained. -/
def configure_rylr998 (rfFreq nodeId txPower : Nat) (loraParams : List Char) :
    List CfgAction :=
  [ .write "AT+RESET\r\n".data, .settle 2,
    .write ("AT+BAND=".data ++ natToChars rfFreq ++ "\r\n".data), .settle 1,
    .write ("AT+ADDRESS=".data ++ natToChars nodeId ++ "\r\n".data), .settle 1,
    .write ("AT+CRFOP=".data ++ natToChars txPower ++ "\r\n".data), .settle 1,
    .write ("AT+PARAMETER=".data ++ loraParams ++ "\r\n".data), .settle 1 ]

/-- `DeviceConnection.configure_device` of the legacy messenger
(legacy/LRms-messenger-pi.py).  Only the OPMODE step is conditional on the
variant; the second `AT+RESET` is sent unconditionally, and the trailing
`for _ in self.read_serial(): pass` loop actually drains up to 100
responses.  (The legacy repeater is identical except that it drains with
exactly ten `uart.readline()` calls.) -/
def legacy_configure_device (deviceType : List Char)
    (rfFreq nodeId txPower : Nat) (loraParams : List Char) : List CfgAction :=
  [.write "AT+RESET\r\n".data, .settle 2] ++
  (if deviceType = "RYLR993".data then [.write "AT+OPMODE=1\r\n".data, .settle 2]
   else []) ++
  [ .write "AT+RESET\r\n".data, .settle 2,
    .write ("AT+BAND=".data ++ natToChars rfFreq ++ "\r\n".data), .settle 1,
    .write ("AT+ADDRESS=".data ++ natToChars nodeId ++ "\r\n".data), .settle 1,
    .write ("AT+CRFOP=".data ++ natToChars txPower ++ "\r\n".data), .settle 1,
    .write ("AT+PARAMETER=".data ++ loraParams ++ "\r\n".data), .settle 1,
    .drain 100 ]

/-- The writes of a handshake trace, in order. -/
def writesOf (tr : List CfgAction) : List (List Char) :=
  tr.filterMap fun a => match a with | .write s => some s | _ => none

/-- How many executed drain loops a handshake trace contains. -/
def drainCount (tr : List CfgAction) : Nat :=
  (tr.filter fun a => match a with | .drain _ => true | _ => false).length

/-! ## Serial transport construction and close
(src/functions/device_connection.py; the legacy repeater constructor is
the same check with `machine.UART` in place of `serial.Serial`). -/

inductive SerialOutcome where
  /-- `raise ValueError("Device type must be RYLR993 or RYLR998")`, raised
  before `serial.Serial(...)` runs: no port is opened. -/
  | valueError : SerialOutcome
  /-- `serial.Serial(port, baud, timeout=1)`: the single hardware action
  of the constructor, with the arguments it receives. -/
  | opened (port : List Char) (baud : Nat) (timeoutSecs : Nat) : SerialOutcome
deriving DecidableEq

/-- `Serial.__init__`: the `device_type not in ['RYLR993', 'RYLR998']`
check runs first and raises `ValueError` before the port is touched;
otherwise the port is opened at `baud_rates[device_type]`. -/
def serialInit (port deviceType : List Char) : SerialOutcome :=
  if deviceType = "RYLR993".data ∨ deviceType = "RYLR998".data then
    .opened port (if deviceType = "RYLR993".data then 9600 else 115200) 1
  else .valueError

/-- The observable state of the underlying pyserial handle: whether it is
open, and how many times `conn.close()` has been invoked on it. -/
structure SerialHandle where
  isOpen : Bool
  closeCalls : Nat
deriving DecidableEq

/-- `Serial.close`: `if self.conn.is_open: self.conn.close()`.  Closing
the underlying handle marks it closed; when the handle is already closed
the method returns without touching it (and raises nothing: the guard
means `conn.close()` is never reached). -/
def close (h : SerialHandle) : SerialHandle :=
  if h.isOpen then ⟨false, h.closeCalls + 1⟩ else h

/-! ## The Message object (src/functions/message.py)

`self.content` is either a `str` or a `bytes` value.  A `bytes` value only
ever arises as the UTF-8 encoding of a text, so it is modelled by the text
it encodes (`pbytes s` stands for `s.encode()`; Python guarantees
`s.encode().decode() == s`). -/

inductive PyContent where
  | pstr (s : List Char) : PyContent
  | pbytes (s : List Char) : PyContent
deriving DecidableEq

/-- `Message.__init__(content)`: stores `content.encode()`, i.e. bytes. -/
def mkMessage (content : List Char) : PyContent :=
  .pbytes content

/-- `Message.encode`: encodes a `str` content in place, raises `TypeError`
on a content that is already `bytes`. -/
def msgEncode : PyContent → Except (List Char) PyContent
  | .pstr s => .ok (.pbytes s)
  | .pbytes _ => .error "Attempted to encode an already encoded message.".data

/-- `Message.decode`: decodes a `bytes` content in place, raises
`TypeError` on a content that is already `str`. -/
def msgDecode : PyContent → Except (List Char) PyContent
  | .pbytes s => .ok (.pstr s)
  | .pstr _ => .error "Attempted to decode a plaintext message.".data

/-! ## The beacon task (src/ui.py `BeaconMasterUI.send_beacon`; the legacy
beaconmaster has the same loop)

```
while not self.stop_event.is_set():
    message = self.commander.send_at_command(self.beacon_text)
    ...
    self.stop_event.wait(BEACON_INTERVAL)
```

Simulated clock: `stop_event` is set once at absolute time `cancelAt`;
`is_set()` at time `now` is `cancelAt ≤ now`; `wait(interval)` started at
`now < cancelAt` returns at `min (now + interval) cancelAt` (the wait is
interrupted the moment the event is set).  Sends take zero simulated time.
`fuel` bounds the number of loop iterations so the model is a total
function; any fuel larger than the number of sends gives the full run. -/

structure BeaconRun where
  /-- the times at which a beacon frame was sent -/
  sends : List Nat
  /-- the time at which the loop observed the signal and returned -/
  endTime : Nat
deriving DecidableEq

/-- One session of `send_beacon` under the simulated clock. -/
def beaconLoop (interval cancelAt : Nat) : Nat → Nat → BeaconRun
  | 0, now => ⟨[], now⟩
  | fuel + 1, now =>
    if cancelAt ≤ now then ⟨[], now⟩
    else
      let rest := beaconLoop interval cancelAt fuel (min (now + interval) cancelAt)
      ⟨now :: rest.sends, rest.endTime⟩

/-! ## Helper lemmas -/

theorem digitChar_isDigit (d : Nat) : (digitChar d).isDigit = true := by
  unfold digitChar; split <;> decide

theorem isDigit_of_mem_natToCharsAux :
    ∀ (fuel n : Nat) {c : Char}, c ∈ natToCharsAux fuel n → c.isDigit = true := by
  intro fuel
  induction fuel with
  | zero => intro n c h; simp [natToCharsAux] at h
  | succ fuel ih =>
    intro n c h
    by_cases hn : n < 10
    · simp [natToCharsAux, hn] at h
      rw [h]; exact digitChar_isDigit n
    · simp [natToCharsAux, hn] at h
      rcases h with h | h
      · exact ih _ h
      · rw [h]; exact digitChar_isDigit (n % 10)

theorem isDigit_of_mem_natToChars {c : Char} {n : Nat} (h : c ∈ natToChars n) :
    c.isDigit = true :=
  isDigit_of_mem_natToCharsAux _ _ h

theorem not_mem_natToChars {c : Char} (hc : c.isDigit = false) (n : Nat) :
    c ∉ natToChars n := fun h => by
  rw [isDigit_of_mem_natToChars h] at hc; cases hc

theorem not_mem_intToChars {c : Char} (hc : c.isDigit = false) (hm : c ≠ '-')
    (i : Int) : c ∉ intToChars i := by
  intro h
  unfold intToChars at h
  by_cases hi : i < 0
  · rw [if_pos hi] at h
    rcases List.mem_cons.mp h with h | h
    · exact hm h
    · exact not_mem_natToChars hc _ h
  · rw [if_neg hi] at h
    exact not_mem_natToChars hc _ h

theorem pySplit_no_sep (sep : Char) :
    ∀ {l : List Char}, sep ∉ l → pySplit sep l = [l] := by
  intro l
  induction l with
  | nil => intro _; rfl
  | cons c cs ih =>
    intro h
    have h1 : ¬ c = sep := fun e => h (by simp [e])
    have h2 : sep ∉ cs := fun e => h (by simp [e])
    simp only [pySplit, if_neg h1, ih h2]

theorem pySplit_append (sep : Char) :
    ∀ (a b : List Char), sep ∉ a →
      pySplit sep (a ++ sep :: b) = a :: pySplit sep b := by
  intro a
  induction a with
  | nil =>
    intro b _
    show pySplit sep (sep :: b) = [] :: pySplit sep b
    simp [pySplit]
  | cons c a ih =>
    intro b h
    have h1 : ¬ c = sep := fun e => h (by simp [e])
    have h2 : sep ∉ a := fun e => h (by simp [e])
    rw [List.cons_append]
    simp only [pySplit, if_neg h1, ih b h2]

/-- Reversal respects contiguous containment. -/
theorem revContains {α : Type} {l₁ l₂ : List α} :
    l₁.reverse <:+: l₂.reverse ↔ l₁ <:+: l₂ := List.reverse_infix

/-- Where a three-element pattern can sit inside `p ++ rest` when its middle
element does not occur in `p`: either fully inside `rest`, or hanging over
the boundary with only its first element as the last element of `p`. -/
theorem tripleSplit (x y z : Char) :
    ∀ (p rest : List Char), y ∉ p → [x, y, z] <:+: p ++ rest →
      [x, y, z] <:+: rest ∨ (p.getLast? = some x ∧ [y, z] <+: rest) := by
  intro p
  induction p with
  | nil => intro rest _ h; left; simpa using h
  | cons a p ih =>
    intro rest hy h
    have hyp : y ∉ p := fun e => hy (by simp [e])
    rw [List.cons_append] at h
    rcases List.infix_cons_iff.mp h with hpre | hinf
    · obtain ⟨t, ht⟩ := hpre
      simp only [List.cons_append, List.nil_append] at ht
      injection ht with hxa ht2
      cases p with
      | nil =>
        right
        simp only [List.nil_append] at ht2
        refine ⟨by simp [hxa], ?_⟩
        exact ⟨t, by rw [← ht2]; rfl⟩
      | cons b p2 =>
        exfalso
        simp only [List.cons_append] at ht2
        injection ht2 with hyb ht3
        exact hy (by simp [hyb])
    · rcases ih rest hyp hinf with h1 | ⟨h2, h3⟩
      · left; exact h1
      · right
        refine ⟨?_, h3⟩
        cases p with
        | nil => simp at h2
        | cons b p2 => rw [List.getLast?_cons_cons]; exact h2

theorem rcvHeaderEq : "+RCV=".data = "+RCV".data ++ ['='] := rfl

/-- If the payload does not contain the tag `"RPT"`, the full
receive-notification line does not either: the other fields are numeric
(possibly signed) and the separators are commas, so the letter P can only
occur inside the payload, and a boundary-straddling occurrence would need
a comma to be R or T. -/
theorem rptNotInLine (addr lenField : Nat) (payload : List Char) (rssi snr : Int)
    (hp : ¬ "RPT".data <:+: payload) :
    ¬ "RPT".data <:+: rcvLine addr lenField payload rssi snr := by
  intro h
  have hshape : rcvLine addr lenField payload rssi snr =
      ("+RCV=".data ++ natToChars addr ++ [','] ++ natToChars lenField ++ [',']) ++
        (payload ++ ([','] ++ intToChars rssi ++ [','] ++ intToChars snr)) := by
    simp [rcvLine, List.append_assoc]
  rw [hshape] at h
  have hPdig : ('P').isDigit = false := by decide
  have hyP1 : 'P' ∉ "+RCV=".data ++ natToChars addr ++ [','] ++ natToChars lenField ++ [','] := by
    simp only [List.mem_append]
    rintro ((((hm | hm) | hm) | hm) | hm)
    · exact absurd hm (by decide)
    · exact not_mem_natToChars hPdig _ hm
    · exact absurd hm (by decide)
    · exact not_mem_natToChars hPdig _ hm
    · exact absurd hm (by decide)
  have hRPT : "RPT".data = ['R', 'P', 'T'] := rfl
  rw [hRPT] at h
  rcases tripleSplit 'R' 'P' 'T' _ _ hyP1 h with h1 | ⟨hlast, _⟩
  · -- the pattern sits inside payload ++ suffix
    have h2 := revContains.mpr h1
    rw [List.reverse_append] at h2
    have hrev : (['R', 'P', 'T'] : List Char).reverse = ['T', 'P', 'R'] := by decide
    rw [hrev] at h2
    have hyPs : 'P' ∉ ([','] ++ intToChars rssi ++ [','] ++ intToChars snr).reverse := by
      rw [List.mem_reverse]
      simp only [List.mem_append]
      rintro (((hm | hm) | hm) | hm)
      · exact absurd hm (by decide)
      · exact not_mem_intToChars hPdig (by decide) _ hm
      · exact absurd hm (by decide)
      · exact not_mem_intToChars hPdig (by decide) _ hm
    rcases tripleSplit 'T' 'P' 'R' _ _ hyPs h2 with h3 | ⟨hl, _⟩
    · apply hp
      rw [hRPT]
      have h4 : (['T', 'P', 'R'] : List Char) = (['R', 'P', 'T'] : List Char).reverse := by decide
      rw [h4] at h3
      exact revContains.mp h3
    · have hhead : ([','] ++ intToChars rssi ++ [','] ++ intToChars snr).reverse.getLast? =
          ([','] ++ intToChars rssi ++ [','] ++ intToChars snr).head? := by
        rw [← List.head?_reverse, List.reverse_reverse]
      rw [hhead] at hl
      have : ([','] ++ intToChars rssi ++ [','] ++ intToChars snr).head? = some ',' := rfl
      rw [this] at hl
      simp at hl
  · have : ("+RCV=".data ++ natToChars addr ++ [','] ++ natToChars lenField ++ [',']).getLast? =
        some ',' := List.getLast?_concat _
    rw [this] at hlast
    simp at hlast

/-- Full evaluation of the messenger decoder on a well-formed receive
notification whose payload contains no comma: the comma split recovers
the fields exactly, `data_parts[0].split("=")[1]` yields the sender
address, and the result is the `"RPT" in msgcontent` test applied to the
payload. -/
theorem parseRcvLineEval (addr lenField : Nat) (payload : List Char) (rssi snr : Int)
    (hc : ',' ∉ payload) :
    parse_received_message (rcvLine addr lenField payload rssi snr) =
      if "RPT".data <:+: payload then .droppedRPT
      else .parsed (natToChars addr) payload (intToChars rssi) (intToChars snr) := by
  have hcommaDig : (',').isDigit = false := by decide
  have hA : ',' ∉ "+RCV=".data ++ natToChars addr := by
    simp only [List.mem_append]
    rintro (hm | hm)
    · exact absurd hm (by decide)
    · exact not_mem_natToChars hcommaDig _ hm
  have hL : ',' ∉ natToChars lenField := not_mem_natToChars hcommaDig _
  have hR : ',' ∉ intToChars rssi := not_mem_intToChars hcommaDig (by decide) _
  have hS : ',' ∉ intToChars snr := not_mem_intToChars hcommaDig (by decide) _
  have e : rcvLine addr lenField payload rssi snr =
      ("+RCV=".data ++ natToChars addr) ++ ',' ::
        (natToChars lenField ++ ',' ::
          (payload ++ ',' :: (intToChars rssi ++ ',' :: intToChars snr))) := by
    simp [rcvLine, List.append_assoc]
  have hsplit : pySplit ',' (rcvLine addr lenField payload rssi snr) =
      ["+RCV=".data ++ natToChars addr, natToChars lenField, payload,
        intToChars rssi, intToChars snr] := by
    rw [e, pySplit_append _ _ _ hA, pySplit_append _ _ _ hL,
      pySplit_append _ _ _ hc, pySplit_append _ _ _ hR, pySplit_no_sep _ hS]
  have hsplitEq : pySplit '=' ("+RCV=".data ++ natToChars addr) =
      ["+RCV".data, natToChars addr] := by
    have e2 : "+RCV=".data ++ natToChars addr = "+RCV".data ++ '=' :: natToChars addr := rfl
    rw [e2, pySplit_append _ _ _ (by decide),
      pySplit_no_sep _ (not_mem_natToChars (by decide) _)]
  have hin : "+RCV".data <:+: rcvLine addr lenField payload rssi snr := by
    rw [e, rcvHeaderEq]
    exact ⟨[], '=' :: natToChars addr ++ ',' ::
      (natToChars lenField ++ ',' ::
        (payload ++ ',' :: (intToChars rssi ++ ',' :: intToChars snr))),
      by simp [List.append_assoc]⟩
  unfold parse_received_message
  rw [if_pos hin]
  dsimp only
  rw [hsplit]
  simp only [List.headD_cons]
  rw [hsplitEq]
  simp only [List.get?_cons_succ, List.get?_cons_zero]

/-! ## Claims -/

/-- C1 counterexample: the messenger decoder is not total on short `+RCV`
lines.  On `"+RCV=1,5"` (a `+RCV` line with only two comma-separated
fields) `parse_received_message` hits `data_parts[2]` on a two-element
list and raises `IndexError` (`indexError` outcome) instead of returning
an explicit malformed value, contradicting the claim that such a line
yields `Malformed` and that decoding never raises. -/
theorem claimC1_counterexample :
    parse_received_message "+RCV=1,5".data = .indexError := by decide

/-- C1 (amended): every line without `"+RCV"` yields the non-event result
in the messenger.  In the repeater the `b"RPT"` drop precheck runs first
on the raw line; on every line that precheck does not drop, a line whose
stripped form does not contain `"+RCV="` yields the non-message result,
and a `"+RCV="` line with fewer than 3 comma-separated fields (such as
`"+RCV=1,5"`) yields the explicit malformed value.  Decoding is not
total: the messenger decoder raises `IndexError` on every `"+RCV"` line
with fewer than 5 comma-separated fields. -/
theorem claimC1 :
    (∀ line : List Char, ¬ "+RCV".data <:+: line →
      parse_received_message line = .notAnEvent) ∧
    (∀ stationId line : List Char, ¬ "RPT".data <:+: line →
      ¬ "+RCV=".data <:+: pyStrip line →
      process_message stationId line = .nonMessage (pyStrip line)) ∧
    (∀ stationId line : List Char, ¬ "RPT".data <:+: line →
      "+RCV=".data <:+: pyStrip line →
      (pySplit ',' (pyStrip line)).length < 3 →
      process_message stationId line = .malformed (pyStrip line)) ∧
    (∀ line : List Char, "+RCV".data <:+: line → (pySplit ',' line).length < 5 →
      parse_received_message line = .indexError) := by
  refine ⟨?_, ?_, ?_, ?_⟩
  · intro line h
    unfold parse_received_message
    rw [if_neg h]
  · intro stationId line h1 h2
    unfold process_message
    rw [if_neg h1]
    dsimp only
    rw [if_neg h2]
  · intro stationId line h1 h2 h3
    unfold process_message
    rw [if_neg h1]
    dsimp only
    rw [if_pos h2, if_pos h3]
  · intro line hin hlen
    have h4 : (pySplit ',' line).get? 4 = none := by
      rw [List.get?_eq_none]
      omega
    have h4' : (pySplit ',' line)[4]? = none := by
      rw [← List.get?_eq_getElem?]
      exact h4
    simp only [parse_received_message, if_pos hin]
    rcases e1 : (pySplit '=' ((pySplit ',' line).headD [])).get? 1 with _ | s1 <;>
      rcases e2 : (pySplit ',' line).get? 2 with _ | s2 <;>
        rcases e3 : (pySplit ',' line).get? 3 with _ | s3 <;>
          simp [e1, e2, e3, h4, h4']

/-- C1 witness: every amended clause applied at a concrete input:
the messenger on `"garbage"`, the repeater on `"garbage"` and on
`"+RCV=1,5"`, and the messenger crash on `"+RCV=1,5"`. -/
theorem claimC1_witness :
    (¬ "+RCV".data <:+: "garbage".data) ∧
    parse_received_message "garbage".data = .notAnEvent ∧
    (¬ "RPT".data <:+: "garbage".data) ∧
    (¬ "+RCV=".data <:+: pyStrip "garbage".data) ∧
    process_message "100".data "garbage".data = .nonMessage (pyStrip "garbage".data) ∧
    (¬ "RPT".data <:+: "+RCV=1,5".data) ∧
    ("+RCV=".data <:+: pyStrip "+RCV=1,5".data) ∧
    (pySplit ',' (pyStrip "+RCV=1,5".data)).length < 3 ∧
    process_message "100".data "+RCV=1,5".data = .malformed (pyStrip "+RCV=1,5".data) ∧
    ("+RCV".data <:+: "+RCV=1,5".data) ∧
    (pySplit ',' "+RCV=1,5".data).length < 5 ∧
    parse_received_message "+RCV=1,5".data = .indexError :=
  ⟨by decide, claimC1.1 "garbage".data (by decide),
   by decide, by decide,
   claimC1.2.1 "100".data "garbage".data (by decide) (by decide),
   by decide, by decide, by decide,
   claimC1.2.2.1 "100".data "+RCV=1,5".data (by decide) (by decide) (by decide),
   by decide, by decide,
   claimC1.2.2.2 "+RCV=1,5".data (by decide) (by decide)⟩

/-- C2: evaluation of the send path at the failing input.  For the
payload `"é"` (one character, two UTF-8 bytes) both the current
`Commander.send_at_command` and the legacy `send_message` put the
character count 1 into the length field of the emitted frame, while the
byte length of the transmitted payload is 2, violating the invariant that
the length field equals `len(payload_bytes)`. -/
theorem claimC2_eval :
    send_at_command "é".data = "AT+SEND=0,1,é\r\n".data ∧
    send_message "é".data = "AT+SEND=0,1,é\r\n".data ∧
    byteLen "é".data = 2 ∧
    natToChars ("é".data).length ≠ natToChars (byteLen "é".data) := by decide

/-- C3 counterexample: the claim fails on the code in two ways.  The
legacy `configure_device` sends `AT+RESET` twice even for the RYLR998
(only the OPMODE step is variant-conditional), and the current
`DeviceConfigurator.configure_rylr998` performs no drain at all (its
trailing `read_serial()` call builds a generator that is never
iterated). -/
theorem claimC3_counterexample :
    (legacy_configure_device "RYLR998".data 867500000 1 22 "9,7,1,12".data).count
      (.write "AT+RESET\r\n".data) = 2 ∧
    drainCount (configure_rylr998 867500000 1 22 "9,7,1,12".data) = 0 ∧
    drainCount (configure_rylr993 867500000 1 22 "9,7,1,12".data) = 0 := by decide

/-- C3 (amended): in `DeviceConfigurator`, the RYLR998 handshake sends
exactly one `AT+RESET` and no `AT+OPMODE`, the RYLR993 handshake is
strictly longer with `AT+OPMODE=1` and a second `AT+RESET`, and both send
BAND, ADDRESS, CRFOP, PARAMETER in that order — but neither drains any
buffered response (the trailing `read_serial()` generator is never
iterated), while the legacy `configure_device` sends the second
`AT+RESET` for both variants and does drain. -/
theorem claimC3 (rfFreq nodeId txPower : Nat) (loraParams : List Char) :
    (configure_rylr998 rfFreq nodeId txPower loraParams).count
      (.write "AT+RESET\r\n".data) = 1 ∧
    (configure_rylr998 rfFreq nodeId txPower loraParams).count
      (.write "AT+OPMODE=1\r\n".data) = 0 ∧
    (configure_rylr993 rfFreq nodeId txPower loraParams).length >
      (configure_rylr998 rfFreq nodeId txPower loraParams).length ∧
    (configure_rylr993 rfFreq nodeId txPower loraParams).count
      (.write "AT+OPMODE=1\r\n".data) = 1 ∧
    (configure_rylr993 rfFreq nodeId txPower loraParams).count
      (.write "AT+RESET\r\n".data) = 2 ∧
    writesOf (configure_rylr998 rfFreq nodeId txPower loraParams) =
      [ "AT+RESET\r\n".data,
        "AT+BAND=".data ++ natToChars rfFreq ++ "\r\n".data,
        "AT+ADDRESS=".data ++ natToChars nodeId ++ "\r\n".data,
        "AT+CRFOP=".data ++ natToChars txPower ++ "\r\n".data,
        "AT+PARAMETER=".data ++ loraParams ++ "\r\n".data ] ∧
    writesOf (configure_rylr993 rfFreq nodeId txPower loraParams) =
      [ "AT+RESET\r\n".data,
        "AT+OPMODE=1\r\n".data,
        "AT+RESET\r\n".data,
        "AT+BAND=".data ++ natToChars rfFreq ++ "\r\n".data,
        "AT+ADDRESS=".data ++ natToChars nodeId ++ "\r\n".data,
        "AT+CRFOP=".data ++ natToChars txPower ++ "\r\n".data,
        "AT+PARAMETER=".data ++ loraParams ++ "\r\n".data ] ∧
    drainCount (configure_rylr993 rfFreq nodeId txPower loraParams) = 0 ∧
    drainCount (configure_rylr998 rfFreq nodeId txPower loraParams) = 0 ∧
    (legacy_configure_device "RYLR998".data rfFreq nodeId txPower loraParams).count
      (.write "AT+RESET\r\n".data) = 2 ∧
    drainCount (legacy_configure_device "RYLR998".data rfFreq nodeId txPower loraParams) = 1 := by
  refine ⟨rfl, rfl, ?_, rfl, rfl, rfl, rfl, rfl, rfl, rfl, rfl⟩
  show 14 > 10
  decide

/-- C4 counterexample: the round trip does not hold for every payload.
Echoing the send frame for the payload `"A,B"` back as a receive
notification and decoding it yields the truncated payload `"A"` (and the
remaining fields shift), not the original payload bytes. -/
theorem claimC4_counterexample :
    parse_received_message (echoRcv 1 "A,B".data (-80) 9) =
      .parsed "1".data "A".data "B".data "-80".data ∧
    MessengerOutcome.parsed "1".data "A".data "B".data "-80".data ≠
      .parsed "1".data "A,B".data "-80".data "9".data :=
  ⟨by decide, by decide⟩

/-- C4 (amended): for every address and every payload that contains no
comma and does not contain the substring `"RPT"`, echoing the encoded
send frame back as `+RCV=<addr>,<len>,<payload>,<rssi>,<snr>` and decoding
it recovers the original address and the original payload bytes. -/
theorem claimC4 (addr : Nat) (payload : List Char) (rssi snr : Int)
    (hc : ',' ∉ payload) (hr : ¬ "RPT".data <:+: payload) :
    parse_received_message (echoRcv addr payload rssi snr) =
      .parsed (natToChars addr) payload (intToChars rssi) (intToChars snr) := by
  unfold echoRcv
  rw [parseRcvLineEval addr payload.length payload rssi snr hc, if_neg hr]

/-- C4 witness: the amended round trip at address 5 and payload
`"HELLO"` with RSSI -80 and SNR 9. -/
theorem claimC4_witness :
    (',' ∉ "HELLO".data) ∧ (¬ "RPT".data <:+: "HELLO".data) ∧
    parse_received_message (echoRcv 5 "HELLO".data (-80) 9) =
      .parsed (natToChars 5) "HELLO".data (intToChars (-80)) (intToChars 9) :=
  ⟨by decide, by decide, claimC4 5 "HELLO".data (-80) 9 (by decide) (by decide)⟩

/-- C5 counterexample: the claim fails on the messenger path it also
covers.  The payload `"A,RPT"` contains `"RPT"`, yet the messenger's
check is `"RPT" in msgcontent` with `msgcontent = data_parts[2]`, so the
event `+RCV=5,5,A,RPT,-80,9` parses to msgcontent `"A"` and is returned
as a parsed event for display instead of being dropped. -/
theorem claimC5_counterexample :
    ("RPT".data <:+: "A,RPT".data) ∧
    parse_received_message (rcvLine 5 5 "A,RPT".data (-80) 9) =
      .parsed "5".data "A".data "RPT".data "-80".data :=
  ⟨by decide, by decide⟩

/-- C5 (amended): the repeater drop check is the bare containment test
`b"RPT" in received_data` on the whole line, executed before parsing, so
for a well-formed receive notification (numeric sender address, length
field, RSSI and SNR) a payload containing `"RPT"` anywhere is dropped
(result `ignored`: nothing is rebroadcast) and a payload not containing
`"RPT"` passes the drop check.  The messenger checks `"RPT"` only against
the comma-split third field, so it drops (returns `None`, nothing
displayed) exactly the comma-free payloads containing `"RPT"` and
displays a parsed event for the comma-free payloads without it; a payload
whose `"RPT"` follows a comma is displayed despite the tag. -/
theorem claimC5 (stationId : List Char) (addr lenField : Nat) (payload : List Char)
    (rssi snr : Int) :
    ("RPT".data <:+: payload →
      process_message stationId (rcvLine addr lenField payload rssi snr) = .ignored) ∧
    (¬ "RPT".data <:+: payload →
      process_message stationId (rcvLine addr lenField payload rssi snr) ≠ .ignored) ∧
    (',' ∉ payload → "RPT".data <:+: payload →
      parse_received_message (rcvLine addr lenField payload rssi snr) = .droppedRPT) ∧
    (',' ∉ payload → ¬ "RPT".data <:+: payload →
      parse_received_message (rcvLine addr lenField payload rssi snr) =
        .parsed (natToChars addr) payload (intToChars rssi) (intToChars snr)) := by
  refine ⟨?_, ?_, ?_, ?_⟩
  · intro h
    have hline : payload <:+: rcvLine addr lenField payload rssi snr :=
      ⟨"+RCV=".data ++ natToChars addr ++ [','] ++ natToChars lenField ++ [','],
       [','] ++ intToChars rssi ++ [','] ++ intToChars snr,
       by simp [rcvLine, List.append_assoc]⟩
    have h2 := h.trans hline
    unfold process_message
    rw [if_pos h2]
  · intro h
    have hno := rptNotInLine addr lenField payload rssi snr h
    unfold process_message
    rw [if_neg hno]
    dsimp only
    split
    · split
      · simp
      · split
        · simp
        · simp
    · simp
  · intro hc h
    rw [parseRcvLineEval addr lenField payload rssi snr hc, if_pos h]
  · intro hc h
    rw [parseRcvLineEval addr lenField payload rssi snr hc, if_neg h]

/-- C5 witness: all four directions at concrete inputs: the repeater
dropping payload `"XRPTY"` and passing payload `"STARTED\r\n"`, and the
messenger dropping `"XRPTY"` and displaying `"STARTED\r\n"`, each inside
a receive notification from sender 5 with RSSI -80 and SNR 9. -/
theorem claimC5_witness :
    ("RPT".data <:+: "XRPTY".data) ∧
    process_message "100".data (rcvLine 5 11 "XRPTY".data (-80) 9) = .ignored ∧
    (¬ "RPT".data <:+: "STARTED\r\n".data) ∧
    process_message "100".data (rcvLine 5 11 "STARTED\r\n".data (-80) 9) ≠ .ignored ∧
    (',' ∉ "XRPTY".data) ∧
    parse_received_message (rcvLine 5 11 "XRPTY".data (-80) 9) = .droppedRPT ∧
    (',' ∉ "STARTED\r\n".data) ∧
    parse_received_message (rcvLine 5 11 "STARTED\r\n".data (-80) 9) =
      .parsed (natToChars 5) "STARTED\r\n".data (intToChars (-80)) (intToChars 9) :=
  ⟨by decide,
   (claimC5 "100".data 5 11 "XRPTY".data (-80) 9).1 (by decide),
   by decide,
   (claimC5 "100".data 5 11 "STARTED\r\n".data (-80) 9).2.1 (by decide),
   by decide,
   (claimC5 "100".data 5 11 "XRPTY".data (-80) 9).2.2.1 (by decide) (by decide),
   by decide,
   (claimC5 "100".data 5 11 "STARTED\r\n".data (-80) 9).2.2.2 (by decide) (by decide)⟩

/-- C6: the concrete repeater scenario.  With station id `"100"`, the
inbound line `"+RCV=5,11,HELLO WORLD,-80,9"` produces the outbound
payload `"HELLO WORLD 5VIA100"` of 19 characters (equal to 19 bytes, the
payload being ASCII) and the exact frame
`"AT+SEND=0,19,HELLO WORLD 5VIA100\r\n"` is written to the transport. -/
theorem claimC6 :
    process_message "100".data "+RCV=5,11,HELLO WORLD,-80,9".data =
      .repeated "AT+SEND=0,19,HELLO WORLD 5VIA100\r\n".data ∧
    ("HELLO WORLD 5VIA100".data).length = 19 ∧
    byteLen "HELLO WORLD 5VIA100".data = 19 := by decide

/-- C7: the beacon loop under the simulated clock.  With a 60 s interval
and cancellation raised at t = 125, a run of up to 185 simulated seconds
sends exactly three frames, at t = 0 (immediately on start), t = 60 and
t = 120, and the loop returns at t = 125, the moment the interrupted wait
observes the signal; in general no frame is ever sent at or after the
cancellation time, and the loop never runs past the cancellation time
(it returns within the interrupted wait instead of a full interval
later). -/
theorem claimC7 :
    beaconLoop 60 125 10 0 = ⟨[0, 60, 120], 125⟩ ∧
    (∀ interval cancelAt fuel now t : Nat,
      t ∈ (beaconLoop interval cancelAt fuel now).sends → t < cancelAt) ∧
    (∀ interval cancelAt fuel now : Nat,
      (beaconLoop interval cancelAt fuel now).endTime ≤ max now cancelAt) := by
  refine ⟨by decide, ?_, ?_⟩
  · intro interval cancelAt fuel
    induction fuel with
    | zero => intro now t ht; simp [beaconLoop] at ht
    | succ fuel ih =>
      intro now t ht
      by_cases hc : cancelAt ≤ now
      · simp [beaconLoop, hc] at ht
      · simp only [beaconLoop, if_neg hc] at ht
        rcases List.mem_cons.mp ht with h | h
        · omega
        · exact ih _ _ h
  · intro interval cancelAt fuel
    induction fuel with
    | zero => intro now; simp [beaconLoop]
    | succ fuel ih =>
      intro now
      by_cases hc : cancelAt ≤ now
      · simp [beaconLoop, hc]
      · simp only [beaconLoop, if_neg hc]
        have := ih (min (now + interval) cancelAt)
        omega

/-- C7 witness: the universal no-send-after-cancellation statement applied
at the concrete run, at the send at t = 0. -/
theorem claimC7_witness :
    0 ∈ (beaconLoop 60 125 10 0).sends ∧ 0 < 125 :=
  ⟨by decide, claimC7.2.1 60 125 10 0 0 (by decide)⟩

/-- C8: the constructor check.  Every device type outside RYLR993/RYLR998
raises `ValueError` before the serial port is opened (the outcome carries
no open action), and the valid variants open the given port at 9600 baud
(RYLR993) and 115200 baud (RYLR998) respectively. -/
theorem claimC8 :
    (∀ port deviceType : List Char, deviceType ≠ "RYLR993".data →
      deviceType ≠ "RYLR998".data → serialInit port deviceType = .valueError) ∧
    (∀ port : List Char,
      serialInit port "RYLR993".data = .opened port 9600 1 ∧
      serialInit port "RYLR998".data = .opened port 115200 1) := by
  constructor
  · intro port dt h1 h2
    simp only [serialInit]
    rw [if_neg]
    rintro (h | h)
    · exact h1 h
    · exact h2 h
  · intro port
    exact ⟨rfl, rfl⟩

/-- C8 witness: the invalid variant `"RYLR000"` and the two valid
variants on a concrete port. -/
theorem claimC8_witness :
    ("RYLR000".data ≠ "RYLR993".data) ∧ ("RYLR000".data ≠ "RYLR998".data) ∧
    serialInit "/dev/ttyS0".data "RYLR000".data = .valueError ∧
    serialInit "/dev/ttyS0".data "RYLR993".data = .opened "/dev/ttyS0".data 9600 1 ∧
    serialInit "/dev/ttyS0".data "RYLR998".data = .opened "/dev/ttyS0".data 115200 1 :=
  ⟨by decide, by decide,
   claimC8.1 "/dev/ttyS0".data "RYLR000".data (by decide) (by decide),
   (claimC8.2 "/dev/ttyS0".data).1,
   (claimC8.2 "/dev/ttyS0".data).2⟩

/-- C9: `close` is idempotent.  `close ∘ close` equals a single `close`,
and on an already-closed transport `close` is a no-op that performs no
second close of the underlying handle (the close-call counter does not
move) and raises nothing (the function is total). -/
theorem claimC9 (h : SerialHandle) :
    close (close h) = close h ∧
    (h.isOpen = false →
      close h = h ∧ (close h).closeCalls = h.closeCalls) := by
  constructor
  · by_cases ho : h.isOpen <;> simp [close, ho]
  · intro hc
    simp [close, hc]

/-- C9 witness: double close of an open handle, and close of an
already-closed handle. -/
theorem claimC9_witness :
    close (close ⟨true, 0⟩) = close ⟨true, 0⟩ ∧
    (SerialHandle.mk false 7).isOpen = false ∧
    close ⟨false, 7⟩ = ⟨false, 7⟩ ∧
    (close ⟨false, 7⟩).closeCalls = 7 :=
  ⟨(claimC9 ⟨true, 0⟩).1, by decide,
   ((claimC9 ⟨false, 7⟩).2 (by decide)).1,
   ((claimC9 ⟨false, 7⟩).2 (by decide)).2⟩

/-- C10: the constructor already stores the content as bytes
(`content.encode()`), so `encode()` on a freshly constructed message
always raises `TypeError`; `decode()` on a fresh message succeeds and
yields the original text, and a second `decode()` (now on a `str`
content) raises `TypeError`. -/
theorem claimC10 (s : List Char) :
    msgEncode (mkMessage s) =
      .error "Attempted to encode an already encoded message.".data ∧
    msgDecode (mkMessage s) = .ok (.pstr s) ∧
    msgDecode (.pstr s) =
      .error "Attempted to decode a plaintext message.".data :=
  ⟨rfl, rfl, rfl⟩

end LRms
